import Mathlib

/-!
Verification of the ifconfig Stream Deck action (`src/actions/ifconfig-info.ts`).

The embedding models the `IfConfigInfoSettings` record, the three event
handlers (`onWillAppear`, `onKeyDown`, `onKeyUp`), and the host-level event
loop with the pending `setTimeout` refreshes.  JavaScript numbers are
modelled as `Int` for millisecond timestamps and `ℚ` for the configurable
threshold (fractional seconds); JS truthiness of a number is `≠ 0`.
-/

namespace SD

/-- Embeds `IfConfigInfoSettings`: `ip_addr?: string`,
`keyDownTimestamp?: number`, `delayToOpenUrl?: number`. -/
structure Settings where
  ip_addr : Option String
  keyDownTimestamp : Option Int
  delayToOpenUrl : Option ℚ
deriving Repr, DecidableEq

/-- Observable calls the handlers make on the host / network boundary. -/
inductive Effect where
  | setTitle (t : String)
  | setSettings (s : Settings)
  | logInfo (m : String)
  | openUrl (url : String)
  | showOk
  | fetchCall (url : String)
  | unhandledFault
deriving Repr, DecidableEq

/-- Embeds `ipAddr.replace(/\./g, ".\n")` at the character level: each
period is replaced by a period followed by a line break. -/
def breakDots : List Char → List Char
  | [] => []
  | c :: cs => if c = '.' then '.' :: '\n' :: breakDots cs else c :: breakDots cs

/-- The formatting step applied to every fetched body before display. -/
def formatIp (s : String) : String :=
  String.mk (breakDots s.data)

/-- JS truthiness of an optional number: `undefined`, `0` (and `NaN`,
not modelled) are falsy, every other value is truthy. -/
def jsTruthyNum : Option ℚ → Bool
  | none => false
  | some v => v != 0

/-- Embeds `settings.keyDownTimestamp ? (keyUpTimestamp - settings.keyDownTimestamp) : 0`
from `onKeyUp`: an absent (or zero, hence falsy) stored timestamp yields 0. -/
def keyUpDuration : Option Int → Int → Int
  | none, _ => 0
  | some t, now => if t = 0 then 0 else now - t

/-- `onKeyUp` clears the press timestamp unconditionally before persisting. -/
def clearPress (s : Settings) : Settings :=
  { s with keyDownTimestamp := none }

/-- The guarded classifier block of `onKeyUp`: when `delayToOpenUrl` is
truthy it logs both timestamps, computes the duration, and on
`duration - 100 > delayToOpenUrl * 1000` opens the URL and shows the
success indicator; otherwise it does nothing. -/
def keyUpBranch (s : Settings) (now : Int) : List Effect :=
  if jsTruthyNum s.delayToOpenUrl then
    Effect.logInfo ("Key up timestamp: " ++ toString now) ::
    Effect.logInfo ("Key down timestamp: " ++
      (match s.keyDownTimestamp with
       | none => "undefined"
       | some t => toString t)) ::
    (if ((keyUpDuration s.keyDownTimestamp now : ℚ)) - 100 >
        (s.delayToOpenUrl.getD 0) * 1000 then
      [Effect.openUrl "https://ifconfig.me", Effect.showOk]
    else [])
  else []

/-- Embeds `IfConfigInfo.onKeyUp`, given the settings delivered with the
event and the current wall-clock time `now` (`Date.now()`).  Returns the
settings object as left at the end of the handler together with the
ordered list of host calls made. -/
def onKeyUp (s : Settings) (now : Int) : Settings × List Effect :=
  (clearPress s, keyUpBranch s now ++ [Effect.setSettings (clearPress s)])

/-- Number of `openUrl` calls in an effect list. -/
def countOpenUrl : List Effect → Nat
  | [] => 0
  | Effect.openUrl _ :: es => countOpenUrl es + 1
  | _ :: es => countOpenUrl es

/-- Number of `showOk` calls in an effect list. -/
def countShowOk : List Effect → Nat
  | [] => 0
  | Effect.showOk :: es => countShowOk es + 1
  | _ :: es => countShowOk es

/-- Number of outbound fetch calls in an effect list. -/
def countFetch : List Effect → Nat
  | [] => 0
  | Effect.fetchCall _ :: es => countFetch es + 1
  | _ :: es => countFetch es

/-- Number of log-level reports in an effect list. -/
def countLog : List Effect → Nat
  | [] => 0
  | Effect.logInfo _ :: es => countLog es + 1
  | _ :: es => countLog es

/-- Number of unhandled faults escaping to the host in an effect list. -/
def countFault : List Effect → Nat
  | [] => 0
  | Effect.unhandledFault :: es => countFault es + 1
  | _ :: es => countFault es

/-- Outcome of `fetch("https://ifconfig.me/ip")` followed by
`response.text()`: either a response arrives (with some HTTP status code,
which the source never inspects, and a body), or the promise rejects
(connection failure or timeout). -/
inductive FetchResult where
  | ok (status : Nat) (body : String)
  | networkError
deriving Repr, DecidableEq

/-- A refresh armed by `setTimeout(..., 500)` inside `onKeyDown`.  The
closure captures the keyDown event's `settings` object by reference; it is
not mutated again before the callback runs, so the armed refresh carries
the value the object holds at arm time (press timestamp included). -/
structure PendingRefresh where
  fireAt : Int
  captured : Settings
deriving Repr, DecidableEq

/-- Host-side view of one key instance: the persisted settings record the
host hands to the next event, and the armed timeouts in arm (= firing)
order.  The source never cancels a timeout, so every armed refresh stays
until it fires. -/
structure SysState where
  persisted : Settings
  pending : List PendingRefresh
deriving Repr, DecidableEq

/-- Events the host scheduler delivers to this action instance, in order:
appearance, press, release (each carrying `Date.now()`), and the expiry of
the oldest armed timeout (carrying that callback's fetch outcome). -/
inductive Ev where
  | appear (res : FetchResult)
  | press (t : Int)
  | release (t : Int)
  | timerFire (res : FetchResult)
deriving Repr, DecidableEq

/-- The shared fetch-format-display block of `onWillAppear` and of the
`setTimeout` callback in `onKeyDown`: on a resolved fetch it writes the
formatted body into the settings object, persists it and sets the title
(the status code is never inspected); on a rejected fetch the `await`
throws out of the handler — no catch exists, nothing further runs and
nothing is logged. -/
def fetchRefresh (s : Settings) (res : FetchResult) : Option Settings × List Effect :=
  match res with
  | FetchResult.networkError =>
      (none, [Effect.fetchCall "https://ifconfig.me/ip", Effect.unhandledFault])
  | FetchResult.ok _status body =>
      (some { s with ip_addr := some (formatIp body) },
       [Effect.fetchCall "https://ifconfig.me/ip",
        Effect.setSettings { s with ip_addr := some (formatIp body) },
        Effect.setTitle (({ s with ip_addr := some (formatIp body) } : Settings).ip_addr.getD "No IP Address")])

/-- One scheduler step.  `press` embeds `onKeyDown`: title feedback, stamp
`keyDownTimestamp`, persist, and arm a refresh for 500 ms later capturing
the same settings object — with no cancellation of any earlier one.
`release` embeds `onKeyUp`.  `timerFire` pops the oldest armed refresh and
runs its callback on the captured object. -/
def step (st : SysState) (e : Ev) : SysState × List Effect :=
  match e with
  | Ev.appear res =>
      match fetchRefresh st.persisted res with
      | (none, effs) => (st, effs)
      | (some s1, effs) => ({ st with persisted := s1 }, effs)
  | Ev.press t =>
      ({ persisted := { st.persisted with keyDownTimestamp := some t },
         pending := st.pending ++
           [⟨t + 500, { st.persisted with keyDownTimestamp := some t }⟩] },
       [Effect.setTitle "Asking...",
        Effect.setSettings { st.persisted with keyDownTimestamp := some t }])
  | Ev.release t =>
      ({ st with persisted := (onKeyUp st.persisted t).1 }, (onKeyUp st.persisted t).2)
  | Ev.timerFire res =>
      match st.pending with
      | [] => (st, [])
      | p :: rest =>
          match fetchRefresh p.captured res with
          | (none, effs) => ({ persisted := st.persisted, pending := rest }, effs)
          | (some s1, effs) => ({ persisted := s1, pending := rest }, effs)

/-- Run a list of events, collecting all effects in order. -/
def run : SysState → List Ev → SysState × List Effect
  | st, [] => (st, [])
  | st, e :: es =>
      ((run (step st e).1 es).1, (step st e).2 ++ (run (step st e).1 es).2)

theorem run_append (st : SysState) (a b : List Ev) :
    run st (a ++ b) =
      ((run (run st a).1 b).1, (run st a).2 ++ (run (run st a).1 b).2) := by
  induction a generalizing st with
  | nil => simp [run]
  | cons e es ih => simp [run, ih]

theorem countFetch_append (a b : List Effect) :
    countFetch (a ++ b) = countFetch a + countFetch b := by
  induction a with
  | nil => simp [countFetch]
  | cons e es ih =>
      cases e <;> simp [countFetch, ih, Nat.add_right_comm]

theorem breakDots_append (l1 l2 : List Char) :
    breakDots (l1 ++ l2) = breakDots l1 ++ breakDots l2 := by
  induction l1 with
  | nil => simp [breakDots]
  | cons c cs ih =>
      by_cases h : c = '.' <;> simp [breakDots, h, ih]

/-- Claim C6: the formatting step inserts a line break after every period:
on the concrete fetched value "203.0.113.42" it yields "203.\n0.\n113.\n42",
and in general formatting a text around a period splits into the formatted
parts joined by a period plus line break. -/
theorem C6_formatIp_breaks_after_every_period :
    formatIp "203.0.113.42" = "203.\n0.\n113.\n42" ∧
    ∀ a b : String, formatIp (a ++ "." ++ b) = formatIp a ++ ".\n" ++ formatIp b := by
  constructor
  · decide
  · intro a b
    apply String.ext
    simp [formatIp, String.data_append, breakDots_append, breakDots]

/-- Claim C7: with no hold threshold configured, `onKeyUp` performs no
classification for any press duration — no URL open, no success
indicator, not even the log lines; the only host call is persisting the
settings with the press timestamp cleared. -/
theorem C7_no_threshold_only_cleanup (s : Settings) (now : Int)
    (h : s.delayToOpenUrl = none) :
    (onKeyUp s now).2 = [Effect.setSettings (clearPress s)] ∧
    (onKeyUp s now).1 = clearPress s := by
  constructor
  · simp [onKeyUp, keyUpBranch, jsTruthyNum, h]
  · rfl

theorem C7_no_threshold_only_cleanup_witness :
    (({ ip_addr := some "x", keyDownTimestamp := some 5, delayToOpenUrl := none } : Settings).delayToOpenUrl = none) ∧
    (onKeyUp { ip_addr := some "x", keyDownTimestamp := some 5, delayToOpenUrl := none } 10).2 =
      [Effect.setSettings (clearPress { ip_addr := some "x", keyDownTimestamp := some 5, delayToOpenUrl := none })] :=
  ⟨rfl, (C7_no_threshold_only_cleanup
      { ip_addr := some "x", keyDownTimestamp := some 5, delayToOpenUrl := none } 10 rfl).1⟩

/-- Claim C9: a configured threshold equal to 0 is falsy, so `onKeyUp`
treats it exactly like an absent threshold: no classification and no URL
open for any press duration, only the cleanup persist. -/
theorem C9_zero_threshold_like_absent (s : Settings) (now : Int)
    (h : s.delayToOpenUrl = some 0) :
    (onKeyUp s now).2 = [Effect.setSettings (clearPress s)] ∧
    (onKeyUp s now).1 = clearPress s := by
  constructor
  · simp [onKeyUp, keyUpBranch, jsTruthyNum, h]
  · rfl

theorem C9_zero_threshold_like_absent_witness :
    (({ ip_addr := some "x", keyDownTimestamp := some 7, delayToOpenUrl := some 0 } : Settings).delayToOpenUrl = some 0) ∧
    (onKeyUp { ip_addr := some "x", keyDownTimestamp := some 7, delayToOpenUrl := some 0 } 99999).2 =
      [Effect.setSettings (clearPress { ip_addr := some "x", keyDownTimestamp := some 7, delayToOpenUrl := some 0 })] :=
  ⟨rfl, (C9_zero_threshold_like_absent
      { ip_addr := some "x", keyDownTimestamp := some 7, delayToOpenUrl := some 0 } 99999 rfl).1⟩

/-- Claim C10: `onKeyUp` never modifies the cached displayed value: the
settings record it persists at the end (its last host call) carries the
`ip_addr` it received, in every branch. -/
theorem C10_keyUp_preserves_ip_addr (s : Settings) (now : Int) :
    (onKeyUp s now).1.ip_addr = s.ip_addr ∧
    (onKeyUp s now).2.getLast? = some (Effect.setSettings (onKeyUp s now).1) := by
  constructor
  · rfl
  · simp [onKeyUp]

/-- Claim C8 counterexample: an implausibly old but present press
timestamp is not detected — the computed duration is `now - timestamp`
(here 999999999 ms, about 11.5 days), not 0 as the claim states. -/
theorem C8_counterexample :
    keyUpDuration (some 1) 1000000000 = 999999999 ∧ (999999999 : Int) ≠ 0 := by
  constructor
  · norm_num [keyUpDuration]
  · norm_num

/-- Claim C8 as amended: an absent press timestamp — or a zero one, which
is falsy — yields duration 0, and any other stored timestamp yields
`now - timestamp` with no staleness check; the computation is total, so
the release handler never throws on account of the timestamp. -/
theorem C8_duration_defensive_default (now : Int) :
    keyUpDuration none now = 0 ∧
    keyUpDuration (some 0) now = 0 ∧
    ∀ t : Int, t ≠ 0 → keyUpDuration (some t) now = now - t := by
  refine ⟨rfl, by simp [keyUpDuration], fun t ht => by simp [keyUpDuration, ht]⟩

theorem C8_duration_defensive_default_witness :
    (3 : Int) ≠ 0 ∧ keyUpDuration (some 3) 10 = 10 - 3 :=
  ⟨by norm_num, (C8_duration_defensive_default 10).2.2 3 (by norm_num)⟩

/-- Claim C1 counterexample: at the exact boundary `d = T*1000 + 100`
(threshold 0.5 s, press stamp 1000, release at 1600, so measured duration
600 = 0.5*1000 + 100) the strict comparison `duration - 100 > T*1000`
fails, so the release makes no URL-open call and no success-indicator
call, contradicting the claimed Hold at `d ≥ T*1000 + 100`. -/
theorem C1_counterexample :
    keyUpDuration (some 1000) 1600 = 600 ∧
    ((600 : ℚ) ≥ (1/2 : ℚ) * 1000 + 100) ∧
    countOpenUrl (onKeyUp { ip_addr := none, keyDownTimestamp := some 1000, delayToOpenUrl := some (1/2) } 1600).2 = 0 ∧
    countShowOk (onKeyUp { ip_addr := none, keyDownTimestamp := some 1000, delayToOpenUrl := some (1/2) } 1600).2 = 0 := by
  have hdur : keyUpDuration (some 1000) 1600 = 600 := by norm_num [keyUpDuration]
  refine ⟨hdur, by norm_num, ?_, ?_⟩ <;>
    · simp only [onKeyUp, keyUpBranch, jsTruthyNum, hdur]
      norm_num [countOpenUrl, countShowOk]

/-- Claim C1 as amended: for every threshold `T` in `[0.5, 5.0]` and every
measured duration `d` strictly greater than `T*1000 + 100`, the release
classifies as Hold — exactly one URL-open call and one success-indicator
call (at `d = T*1000 + 100` exactly the release is a Tap). -/
theorem C1_hold_strictly_above_threshold_plus_buffer (T : ℚ)
    (hT1 : 1/2 ≤ T) (_hT2 : T ≤ 5) (d : Int) (hd : (d : ℚ) > T * 1000 + 100)
    (ip : Option String) (t0 : Int) (ht0 : t0 ≠ 0) :
    countOpenUrl (onKeyUp { ip_addr := ip, keyDownTimestamp := some t0, delayToOpenUrl := some T } (t0 + d)).2 = 1 ∧
    countShowOk (onKeyUp { ip_addr := ip, keyDownTimestamp := some t0, delayToOpenUrl := some T } (t0 + d)).2 = 1 := by
  have hTne : T ≠ 0 := by intro h; rw [h] at hT1; norm_num at hT1
  have hdur : keyUpDuration (some t0) (t0 + d) = d := by simp [keyUpDuration, ht0]
  have hcmp : ((d : ℚ)) - 100 > T * 1000 := by linarith
  constructor <;>
    simp [onKeyUp, keyUpBranch, jsTruthyNum, hdur, hTne, hcmp, countOpenUrl, countShowOk]

theorem C1_hold_strictly_above_threshold_plus_buffer_witness :
    ((1/2 : ℚ) ≤ 1/2 ∧ (1/2 : ℚ) ≤ 5 ∧ (((601 : Int)) : ℚ) > (1/2 : ℚ) * 1000 + 100 ∧ (1000 : Int) ≠ 0) ∧
    countOpenUrl (onKeyUp { ip_addr := none, keyDownTimestamp := some 1000, delayToOpenUrl := some (1/2) } (1000 + 601)).2 = 1 ∧
    countShowOk (onKeyUp { ip_addr := none, keyDownTimestamp := some 1000, delayToOpenUrl := some (1/2) } (1000 + 601)).2 = 1 :=
  ⟨⟨by norm_num, by norm_num, by norm_num, by norm_num⟩,
   C1_hold_strictly_above_threshold_plus_buffer (1/2) (by norm_num) (by norm_num)
     601 (by norm_num) none 1000 (by norm_num)⟩

/-- Claim C2: for every threshold `T` in `[0.5, 5.0]` and every measured
duration `d < T*1000 + 100`, the release classifies as Tap: no URL-open
call and no success-indicator call. -/
theorem C2_tap_below_threshold_plus_buffer (T : ℚ)
    (hT1 : 1/2 ≤ T) (_hT2 : T ≤ 5) (d : Int) (hd : (d : ℚ) < T * 1000 + 100)
    (ip : Option String) (t0 : Int) (ht0 : t0 ≠ 0) :
    countOpenUrl (onKeyUp { ip_addr := ip, keyDownTimestamp := some t0, delayToOpenUrl := some T } (t0 + d)).2 = 0 ∧
    countShowOk (onKeyUp { ip_addr := ip, keyDownTimestamp := some t0, delayToOpenUrl := some T } (t0 + d)).2 = 0 := by
  have hTne : T ≠ 0 := by intro h; rw [h] at hT1; norm_num at hT1
  have hdur : keyUpDuration (some t0) (t0 + d) = d := by simp [keyUpDuration, ht0]
  have hcmp : ¬(((d : Int) : ℚ) - 100 > T * 1000) := by push_neg; linarith
  constructor <;>
    simp [onKeyUp, keyUpBranch, jsTruthyNum, hdur, hTne, hcmp, countOpenUrl, countShowOk]

theorem C2_tap_below_threshold_plus_buffer_witness :
    ((1/2 : ℚ) ≤ 1/2 ∧ (1/2 : ℚ) ≤ 5 ∧ (((550 : Int)) : ℚ) < (1/2 : ℚ) * 1000 + 100 ∧ (1000 : Int) ≠ 0) ∧
    countOpenUrl (onKeyUp { ip_addr := none, keyDownTimestamp := some 1000, delayToOpenUrl := some (1/2) } (1000 + 550)).2 = 0 ∧
    countShowOk (onKeyUp { ip_addr := none, keyDownTimestamp := some 1000, delayToOpenUrl := some (1/2) } (1000 + 550)).2 = 0 :=
  ⟨⟨by norm_num, by norm_num, by norm_num, by norm_num⟩,
   C2_tap_below_threshold_plus_buffer (1/2) (by norm_num) (by norm_num)
     550 (by norm_num) none 1000 (by norm_num)⟩

/-- Claim C3 counterexample: press at 1000 arms a refresh whose closure
captures the settings object holding `keyDownTimestamp = some 1000`; the
release at 1300 clears and persists it (absent immediately after the
release), but when the armed refresh fires after the release it persists
the captured object again, so the persisted press timestamp is back to
`some 1000` — a non-null value from an earlier gesture instance. -/
theorem C3_counterexample :
    (run ⟨{ ip_addr := some "IP", keyDownTimestamp := none, delayToOpenUrl := none }, []⟩
        [Ev.press 1000, Ev.release 1300]).1.persisted.keyDownTimestamp = none ∧
    (run ⟨{ ip_addr := some "IP", keyDownTimestamp := none, delayToOpenUrl := none }, []⟩
        [Ev.press 1000, Ev.release 1300,
         Ev.timerFire (FetchResult.ok 200 "1.2")]).1.persisted.keyDownTimestamp = some 1000 := by
  exact ⟨rfl, rfl⟩

/-- Claim C3 as amended: every release clears the press timestamp in the
settings it persists, so the timestamp is absent immediately after the
release completes; but a debounced refresh armed by an earlier press that
fires after the release re-persists the settings object captured at press
time, making the persisted press timestamp non-null again. -/
theorem C3_release_clears_but_stale_refresh_repersists :
    (∀ (s : Settings) (now : Int), (onKeyUp s now).1.keyDownTimestamp = none) ∧
    (run ⟨{ ip_addr := some "IP", keyDownTimestamp := none, delayToOpenUrl := none }, []⟩
        [Ev.press 2000, Ev.release 2300]).1.persisted.keyDownTimestamp = none ∧
    (run ⟨{ ip_addr := some "IP", keyDownTimestamp := none, delayToOpenUrl := none }, []⟩
        [Ev.press 2000, Ev.release 2300,
         Ev.timerFire (FetchResult.ok 200 "10.0.0.1")]).1.persisted.keyDownTimestamp = some 2000 := by
  exact ⟨fun s now => rfl, rfl, rfl⟩

theorem run_cons (st : SysState) (e : Ev) (es : List Ev) :
    run st (e :: es) =
      ((run (step st e).1 es).1, (step st e).2 ++ (run (step st e).1 es).2) := rfl

theorem step_press (st : SysState) (t : Int) :
    step st (Ev.press t) =
      (⟨{ st.persisted with keyDownTimestamp := some t },
        st.pending ++ [⟨t + 500, { st.persisted with keyDownTimestamp := some t }⟩]⟩,
       [Effect.setTitle "Asking...",
        Effect.setSettings { st.persisted with keyDownTimestamp := some t }]) := rfl

theorem press_run_pending (ts : List Int) (s : Settings) (l : List PendingRefresh) :
    (run ⟨s, l⟩ (ts.map Ev.press)).1.pending.length = l.length + ts.length ∧
    countFetch (run ⟨s, l⟩ (ts.map Ev.press)).2 = 0 := by
  induction ts generalizing s l with
  | nil => simp [run, countFetch]
  | cons t ts ih =>
      have h := ih { s with keyDownTimestamp := some t }
        (l ++ [⟨t + 500, { s with keyDownTimestamp := some t }⟩])
      constructor
      · simp only [List.map_cons, run_cons, step_press]
        rw [h.1]
        simp
        omega
      · simp only [List.map_cons, run_cons, step_press, countFetch_append]
        rw [h.2]
        simp [countFetch]

theorem fire_countFetch_one (s : Settings) (p : PendingRefresh)
    (rest : List PendingRefresh) (res : FetchResult) :
    countFetch (step ⟨s, p :: rest⟩ (Ev.timerFire res)).2 = 1 ∧
    (step ⟨s, p :: rest⟩ (Ev.timerFire res)).1.pending = rest := by
  cases res <;> simp [step, fetchRefresh, countFetch]

theorem fires_countFetch (res : FetchResult) (n : Nat) :
    ∀ (l : List PendingRefresh) (s : Settings), n ≤ l.length →
      countFetch (run ⟨s, l⟩ (List.replicate n (Ev.timerFire res))).2 = n := by
  induction n with
  | zero => intro l s _; simp [run, countFetch]
  | succ n ih =>
      intro l s h
      cases l with
      | nil => simp at h
      | cons p rest =>
          have hn : n ≤ rest.length := Nat.le_of_succ_le_succ h
          cases res with
          | networkError =>
              simp only [List.replicate_succ, run_cons, step, fetchRefresh, countFetch_append]
              rw [ih rest s hn]
              simp [countFetch]
              omega
          | ok status body =>
              simp only [List.replicate_succ, run_cons, step, fetchRefresh, countFetch_append]
              rw [ih rest { p.captured with ip_addr := some (formatIp body) } hn]
              simp [countFetch]
              omega

/-- Claim C4 counterexample: two press events 100 ms apart — well within
the 500 ms debounce window of the first — arm two independent timeouts
(the source never cancels one); when both expire, two fetch calls occur,
not at most one. -/
theorem C4_counterexample :
    ((100 : Int) < 0 + 500) ∧
    countFetch (run ⟨{ ip_addr := none, keyDownTimestamp := none, delayToOpenUrl := none }, []⟩
      [Ev.press 0, Ev.press 100,
       Ev.timerFire (FetchResult.ok 200 "9.9"),
       Ev.timerFire (FetchResult.ok 200 "9.9")]).2 = 2 := by
  exact ⟨by norm_num, rfl⟩

/-- Claim C4 as amended: each press arms an additional pending refresh
without superseding any previously armed one, and every armed refresh
performs its own fetch when it expires; hence N presses result in exactly
N fetch calls (one per press), not at most one per debounce window. -/
theorem C4_presses_arm_independent_refreshes (s : Settings) (ts : List Int)
    (res : FetchResult) :
    countFetch (run ⟨s, []⟩
      (ts.map Ev.press ++ List.replicate ts.length (Ev.timerFire res))).2 = ts.length := by
  have hpress := press_run_pending ts s []
  rw [run_append, countFetch_append, hpress.2]
  have hlen : ts.length ≤ (run ⟨s, []⟩ (ts.map Ev.press)).1.pending.length := by
    rw [hpress.1]; simp
  have hfire := fires_countFetch res ts.length
    (run ⟨s, []⟩ (ts.map Ev.press)).1.pending
    (run ⟨s, []⟩ (ts.map Ev.press)).1.persisted hlen
  simpa using hfire

/-- Claim C5 counterexample: on appearance with a failing fetch
(connection failure / timeout, so the awaited promise rejects), the
handler has no catch: the cached value is indeed left unchanged, but one
unhandled fault escapes to the host and zero log-level reports are made —
contradicting "no unhandled fault" and "reported at log level". -/
theorem C5_counterexample :
    countFault (step ⟨{ ip_addr := some "203.\n0.\n113.\n42", keyDownTimestamp := none, delayToOpenUrl := none }, []⟩
      (Ev.appear FetchResult.networkError)).2 = 1 ∧
    countLog (step ⟨{ ip_addr := some "203.\n0.\n113.\n42", keyDownTimestamp := none, delayToOpenUrl := none }, []⟩
      (Ev.appear FetchResult.networkError)).2 = 0 ∧
    (step ⟨{ ip_addr := some "203.\n0.\n113.\n42", keyDownTimestamp := none, delayToOpenUrl := none }, []⟩
      (Ev.appear FetchResult.networkError)).1.persisted.ip_addr = some "203.\n0.\n113.\n42" := by
  exact ⟨rfl, rfl, rfl⟩

/-- Claim C5 as amended: on a rejected fetch (connection failure or
timeout) the cached/displayed value is left unchanged in both the
appearance and the debounced-refresh phase, but the rejection escapes as
an unhandled fault and no log-level report is made; a response with a
non-success status is not detected as a failure at all — its body is
formatted and overwrites the cached value. -/
theorem C5_fetch_failure_semantics :
    (∀ st : SysState,
        step st (Ev.appear FetchResult.networkError) =
          (st, [Effect.fetchCall "https://ifconfig.me/ip", Effect.unhandledFault])) ∧
    (∀ (s : Settings) (p : PendingRefresh) (rest : List PendingRefresh),
        step ⟨s, p :: rest⟩ (Ev.timerFire FetchResult.networkError) =
          (⟨s, rest⟩, [Effect.fetchCall "https://ifconfig.me/ip", Effect.unhandledFault])) ∧
    (∀ (st : SysState) (status : Nat) (body : String),
        (step st (Ev.appear (FetchResult.ok status body))).1.persisted.ip_addr =
          some (formatIp body)) := by
  exact ⟨fun st => rfl, fun s p rest => rfl, fun st status body => rfl⟩

end SD
